import Mathlib

/-
Verification development for the YT-DL Telegram bot (src/main.py).

The embedding models the retrieval-and-delivery pipeline of the `/ytdl`
command handler `ytdl_cmd`, the rate-limited progress notifier
`ProgressNotifier.update`, the YouTube URL regular expression
`YOUTUBE_URL_RE`, and the helper `human_bytes`.

Modelling conventions:
* Wall-clock times (Python `time.time()` floats, in seconds) are modelled as
  integers counting microseconds, so the default minimum interval 0.8 s is
  the integer 800000; the threshold comparison `now - last_edit <
  min_interval` is exact on this grid, and only the real-valued (binary
  float) refinement of the grid is abstracted away.
* Character classes of the regular expression (`\w`, `\s`) are modelled over
  their ASCII meaning (`[A-Za-z0-9_]` resp. `[ \t\n\r\v\f]`); the Unicode
  extension of those classes is not exercised by any claim.
* External effects (the Telegram API, yt_dlp, the filesystem) are modelled
  as an `Exec` record of oracle answers, and each outward call of the
  handler is recorded as an `Event` in the run trace, in program order.
-/

namespace YTDL

/-! ## URL validation: YOUTUBE_URL_RE (src/main.py lines 31-36)

The pattern, compiled with re.IGNORECASE and used via re.match (anchored at
the start; the trailing $ also matches just before one final newline):

  ^(https?://)?(www\.)?
  (youtube\.com/(watch\?v=[\w-]+|shorts/[\w-]+|live/[\w-]+)|youtu\.be/[\w-]+)
  ([&?][^\s]+)?$

Every alternation and optional group in the pattern is first-character
deterministic, so the matcher below needs no backtracking:
scheme literals cannot prefix `www.`/`youtube.com`/`youtu.be`, the two hosts
differ at their sixth character, the three path shapes differ at their first
character, and the `[\w-]+` id class is disjoint from the `[&?]` follow set.
-/

/-- Strip a literal piece of the pattern (given lowercase) from the front of
the input, comparing case-insensitively (the regex carries re.IGNORECASE).
Returns the remaining input on success. -/
def stripLit : List Char → List Char → Option (List Char)
  | [], s => some s
  | _ :: _, [] => none
  | p :: ps, c :: cs => if c.toLower = p then stripLit ps cs else none

/-- Case-insensitive literal match of a pattern string. -/
def lit (p : String) (s : List Char) : Option (List Char) :=
  stripLit p.toList s

/-- Membership in the id character class of the pattern, `[\w-]`
(ASCII reading of `\w`). -/
def isWordDash (c : Char) : Bool :=
  c.isAlphanum || c = '_' || c = '-'

/-- Membership in Python's `\s` class (ASCII reading):
space, tab, newline, carriage return, vertical tab, form feed. -/
def isPySpace (c : Char) : Bool :=
  c = ' ' || c = '\t' || c = '\n' || c = '\r' || c = '\x0b' || c = '\x0c'

/-- The `$` anchor outside re.MULTILINE: it matches at the very end of the
input, or just before one final newline. -/
def endAnchor : List Char → Bool
  | [] => true
  | ['\n'] => true
  | _ => false

/-- The optional query-suffix group followed by the anchor,
`([&?][^\s]+)?$`. -/
def queryTailOk : List Char → Bool
  | [] => true
  | ['\n'] => true
  | c :: rest =>
    (c == '&' || c == '?') &&
    (let sp := rest.span (fun x => !(isPySpace x))
     !sp.1.isEmpty && endAnchor sp.2)

/-- An id, `[\w-]+`, followed by the query-suffix group and the anchor. -/
def idThenTail (s : List Char) : Bool :=
  let sp := s.span isWordDash
  !sp.1.isEmpty && queryTailOk sp.2

/-- The optional scheme group `(https?://)?`. -/
def afterScheme (s : List Char) : List Char :=
  match lit "https://" s with
  | some r => r
  | none =>
    match lit "http://" s with
    | some r => r
    | none => s

/-- The optional `(www\.)?` group. -/
def afterWww (s : List Char) : List Char :=
  match lit "www." s with
  | some r => r
  | none => s

/-- Full-pattern match over the character list of the candidate. -/
def matchChars (s : List Char) : Bool :=
  let r := afterWww (afterScheme s)
  match lit "youtube.com/" r with
  | some r1 =>
    (match lit "watch?v=" r1 with
     | some r2 => idThenTail r2
     | none =>
       match lit "shorts/" r1 with
       | some r2 => idThenTail r2
       | none =>
         match lit "live/" r1 with
         | some r2 => idThenTail r2
         | none => false)
  | none =>
    match lit "youtu.be/" r with
    | some r1 => idThenTail r1
    | none => false

/-- The guard `YOUTUBE_URL_RE.match(url)` of ytdl_cmd, as a Boolean. -/
def youtubeUrlMatch (s : String) : Bool :=
  matchChars s.toList

/-! ## human_bytes (src/main.py lines 169-178)

The source divides a byte count by 1024.0 while the value is at least 1024
and fewer than three divisions were done, then renders the value with the
format specifier `:.1f`. Its only call site passes the integer
`os.path.getsize(filename)`. We compute the same quantity exactly: after
`i` divisions the value is the rational n / 1024^i, the loop condition
`n / 1024^i >= 1024` is `n >= 1024^(i+1)`, and the one-decimal rendering of
n / 1024^i with round-half-up is `(20 * n + 1024^i) / (2 * 1024^i)` tenths,
all in natural-number arithmetic. Only the binary-float rounding of the
source (and its round-half-even choice at exact ties) is abstracted. -/

/-- Units table of human_bytes. -/
def humanUnits : List String := ["B", "KB", "MB", "GB"]

/-- human_bytes: convert a byte count to a human readable string. The
source also maps a Python None to "unknown"; no call site passes None. -/
def human_bytes (n : Nat) : String :=
  let i := if n < 1024 then 0
    else if n < 1024 * 1024 then 1
    else if n < 1024 * 1024 * 1024 then 2
    else 3
  let p := 1024 ^ i
  let t := (20 * n + p) / (2 * p)
  toString (t / 10) ++ "." ++ toString (t % 10) ++ " " ++ humanUnits.getD i ""

/-- Python's character slice `s[:n]`: the first n characters. -/
def pyTake (s : String) (n : Nat) : String :=
  String.mk (s.toList.take n)

/-- Python's `str.endswith(suffix)` for one suffix. -/
def pyEnds (s suf : String) : Bool :=
  suf.toList.isSuffixOf s.toList

/-! ## ProgressNotifier (src/main.py lines 180-205)

The notifier's mutable state is `last_edit` (initially the int literal 0)
and `last_text` (initially None). `update` reads the clock once, returns
early on its two rate conditions, and otherwise attempts
`edit_message_text` under `suppress(Exception)`: the state is advanced only
when the edit call returns without raising, but the outbound call itself
happens either way. -/

structure PNState where
  last_edit : ℤ
  last_text : Option String
deriving DecidableEq

/-- The initial notifier state set in `ProgressNotifier.__init__`. -/
def PNState.init : PNState := { last_edit := 0, last_text := none }

/-- One call of `ProgressNotifier.update`. Inputs: the current state, the
text, the clock reading `now` taken at entry (microseconds), whether the
`edit_message_text` call would succeed, and the `min_interval` argument
(0.8 s at every call site). Returns the new state and whether an outbound
edit call was made. -/
def PNState.update (st : PNState) (text : String) (now : ℤ) (editOk : Bool)
    (min_interval : ℤ) : PNState × Bool :=
  if st.last_text = some text ∧ now - st.last_edit < min_interval then (st, false)
  else if now - st.last_edit < min_interval then (st, false)
  else if editOk then ({ last_edit := now, last_text := some text }, true)
  else (st, true)

/-- The default `min_interval` of `ProgressNotifier.update`: 0.8 seconds,
written on the microsecond grid. -/
def minInterval : ℤ := 800000

/-! ## The /ytdl pipeline: ytdl_cmd (src/main.py lines 248-357)

The handler is modelled as a pure function from its inputs to a terminal
outcome and the trace of its outward calls, in program order. External
behaviour (yt_dlp, the filesystem, the Telegram endpoint, the clock read
inside each notifier call) is an `Exec` record of oracle answers. The
`import yt_dlp` at the top of the handler is modelled as succeeding, and
`TemporaryDirectory.cleanup` as removing the directory (the source wraps
it in a bare try/except whose failure branch is an OS-level error outside
the model). The message texts below reproduce, code point for code point,
the literals of the source file (which stores its emoji as mojibake
character sequences). Captions and log lines are not part of any claim and
are omitted from the trace. -/

/-- Result of `ydl.extract_info(url, download=False)`: the fields of the
info dict the handler reads (`title`, `duration`), plus the direct media
URL that yt_dlp also returns and that the handler never reads. -/
structure YdlInfo where
  title : Option String
  duration : Option Nat
  direct_url : Option String
deriving DecidableEq

/-- One outward call of the handler. `notify` records a
`ProgressNotifier.update` call together with whether it produced an
outbound `edit_message_text`; `videoUpload`/`docUpload` record the stream
position an upload attempt reads from and the bytes it serves from there;
`remoteRefSend` would be a send-by-URL hand-off of the remote media URL to
Telegram (no line of `ytdl_cmd` performs one). -/
inductive Event where
  | replyText (text : String)
  | acquire
  | notify (text : String) (sent : Bool)
  | extractCall
  | downloadCall
  | remoteRefSend
  | videoUpload (pos : Nat) (payload : List Nat)
  | docUpload (pos : Nat) (payload : List Nat)
  | cleanup
deriving DecidableEq

/-- The local artifact opened with `open(filename, "rb")`: its bytes and
the current read position. -/
structure FileStream where
  bytes : List Nat
  pos : Nat
deriving DecidableEq

/-- The `f.seek(0)` call before the document retry. -/
def FileStream.seek0 (f : FileStream) : FileStream := { f with pos := 0 }

/-- What an upload attempt reads: the stream from its current position. -/
def FileStream.readAll (f : FileStream) : List Nat := f.bytes.drop f.pos

/-- Terminal outcome of one handler run. -/
inductive Outcome where
  | usage
  | invalidLink
  | tooLong
  | noFile
  | tooLarge (fsize : Nat)
  | sentVideo
  | sentDoc
  | errorCaught (msg : String)
deriving DecidableEq

/-- Oracle answers of the external world for one run: whether each
outward call succeeds, the data it returns, the clock reading and edit
success of the k-th notifier call, and the str(e) message of each call
that can raise. `pos_after_video` is the stream position the failed
`reply_video` attempt leaves behind (how much the endpoint consumed before
rejecting is not determined by the handler). -/
structure Exec where
  extract_ok : Bool
  info : YdlInfo
  extract_msg : String
  download_ok : Bool
  download_msg : String
  listed : List String
  fsize : Nat
  artifact : List Nat
  video_ok : Bool
  pos_after_video : Nat
  doc_ok : Bool
  doc_msg : String
  clock : Nat → ℤ
  edit_ok : Nat → Bool

/-- Message literals of the handler (exact code points of the source). -/
def usageText : String := "Usage: /ytdl <YouTube link>"

def invalidText : String := "Invalid YouTube link."

def preparingText : String := "üîç Preparing download‚Ä¶"

def fetchingText : String := "üîç Fetching video info..."

def tooLongText : String := "‚ùå Video too long! Max 30 minutes allowed."

def foundText (title : String) : String :=
  "üé¨ Found: " ++ pyTake title 50 ++
    "...\n‚¨áÔ∏è Starting download..."

def noFileText : String := "‚ùå Download failed: No video file found"

def uploadingText : String := "üì§ Uploading to Telegram..."

def tooLargeText (n : Nat) : String :=
  "‚ùå File too large (" ++ human_bytes n ++ "). Max 50MB allowed."

def caughtText (msg : String) : String := "‚ùå Error: " ++ pyTake msg 200

/-- Python's `str.strip()` with no argument (ASCII whitespace reading):
drop leading and trailing whitespace characters. -/
def pyStrip (s : String) : String :=
  String.mk (((s.toList.dropWhile isPySpace).reverse.dropWhile isPySpace).reverse)

/-- The scan `file.endswith(('.mp4', '.mkv', '.webm'))` over the workspace
listing. -/
def isVideoFile (name : String) : Bool :=
  pyEnds name ".mp4" || pyEnds name ".mkv" || pyEnds name ".webm"

/-- The 50MB Telegram ceiling `max_size = 50 * 1024 * 1024`. -/
def maxUploadSize : Nat := 50 * 1024 * 1024

/-- One `notifier.update(text)` call inside the run: threads the notifier
state and the per-run index of the call (which selects the clock reading
and edit success), and records the call as an event. -/
def doNotify (ex : Exec) (s : PNState × Nat) (text : String) :
    (PNState × Nat) × Event :=
  let r := s.1.update text (ex.clock s.2) (ex.edit_ok s.2) minInterval
  ((r.1, s.2 + 1), Event.notify text r.2)

/-- The try-block of ytdl_cmd (lines 272-345), from the first notifier
call up to the point the block either returns (Sum.inl, with the terminal
outcome) or an exception escapes to the handler's except-clause (Sum.inr,
with str(e)). Returns those, the events of the block in program order, and
the notifier state left behind. The file scan takes the first listed name
with a video extension; `os.path.exists` on a just-listed name is true. -/
def runTry (ex : Exec) : (Outcome ⊕ String) × List Event × (PNState × Nat) :=
  let n1 := doNotify ex (PNState.init, 0) fetchingText
  if ex.extract_ok then
    let title := ex.info.title.getD "Unknown"
    let dur := ex.info.duration.getD 0
    if dur > 1800 then
      let n2 := doNotify ex n1.1 tooLongText
      (Sum.inl Outcome.tooLong, [n1.2, Event.extractCall, n2.2], n2.1)
    else
      let n2 := doNotify ex n1.1 (foundText title)
      if ex.download_ok then
        match ex.listed.find? isVideoFile with
        | none =>
          let n3 := doNotify ex n2.1 noFileText
          (Sum.inl Outcome.noFile,
            [n1.2, Event.extractCall, n2.2, Event.downloadCall, n3.2], n3.1)
        | some _ =>
          let n3 := doNotify ex n2.1 uploadingText
          if ex.fsize > maxUploadSize then
            let n4 := doNotify ex n3.1 (tooLargeText ex.fsize)
            (Sum.inl (Outcome.tooLarge ex.fsize),
              [n1.2, Event.extractCall, n2.2, Event.downloadCall, n3.2, n4.2],
              n4.1)
          else
            let f0 : FileStream := { bytes := ex.artifact, pos := 0 }
            if ex.video_ok then
              (Sum.inl Outcome.sentVideo,
                [n1.2, Event.extractCall, n2.2, Event.downloadCall, n3.2,
                  Event.videoUpload f0.pos f0.readAll], n3.1)
            else
              let f2 := (FileStream.mk ex.artifact ex.pos_after_video).seek0
              if ex.doc_ok then
                (Sum.inl Outcome.sentDoc,
                  [n1.2, Event.extractCall, n2.2, Event.downloadCall, n3.2,
                    Event.videoUpload f0.pos f0.readAll,
                    Event.docUpload f2.pos f2.readAll], n3.1)
              else
                (Sum.inr ex.doc_msg,
                  [n1.2, Event.extractCall, n2.2, Event.downloadCall, n3.2,
                    Event.videoUpload f0.pos f0.readAll,
                    Event.docUpload f2.pos f2.readAll], n3.1)
      else
        (Sum.inr ex.download_msg,
          [n1.2, Event.extractCall, n2.2, Event.downloadCall], n2.1)
  else
    (Sum.inr ex.extract_msg, [n1.2, Event.extractCall], n1.1)

/-- The try/except/finally of ytdl_cmd: a caught exception produces one
more notifier call with the truncated error text, and the finally-clause
tears the workspace down on every path. -/
def runBody (ex : Exec) : Outcome × List Event :=
  match runTry ex with
  | (Sum.inl out, evs, _) => (out, evs ++ [Event.cleanup])
  | (Sum.inr msg, evs, s) =>
    let n := doNotify ex s (caughtText msg)
    (Outcome.errorCaught msg, evs ++ [n.2, Event.cleanup])

/-- The whole handler: argument check, `url = args[0].strip()`, the
YOUTUBE_URL_RE guard, the initial status reply, workspace acquisition
(`tempfile.TemporaryDirectory()`), then the try/except/finally body. -/
def ytdl_cmd (args : List String) (ex : Exec) : Outcome × List Event :=
  match args with
  | [] => (Outcome.usage, [Event.replyText usageText])
  | arg0 :: _ =>
    if youtubeUrlMatch (pyStrip arg0) then
      let r := runBody ex
      (r.1, Event.replyText preparingText :: Event.acquire :: r.2)
    else
      (Outcome.invalidLink, [Event.replyText invalidText])

/-- The user-facing text the handler associates with each terminal failure
outcome (none for the non-failure outcomes). -/
def failNotice : Outcome → Option String
  | Outcome.tooLong => some tooLongText
  | Outcome.noFile => some noFileText
  | Outcome.tooLarge n => some (tooLargeText n)
  | Outcome.errorCaught m => some (caughtText m)
  | _ => none

/-- Classifier: a notifier call carrying exactly the given text. -/
def Event.isNotifyText (txt : String) : Event → Bool
  | Event.notify t _ => t == txt
  | _ => false

/-- Classifier: an upload attempt of either payload kind. -/
def Event.isUpload : Event → Bool
  | Event.videoUpload _ _ => true
  | Event.docUpload _ _ => true
  | _ => false

/-- A concrete external-world record used by the closed witnesses: a
two-minute, well-behaved run whose notifier calls are spaced one second
apart and whose edits succeed. -/
def exBase : Exec :=
  { extract_ok := true,
    info := { title := some "Video Title", duration := some 120,
              direct_url := some "https://cdn.example/v.mp4" },
    extract_msg := "",
    download_ok := true,
    download_msg := "",
    listed := ["info.json", "v.mp4"],
    fsize := 1000,
    artifact := [10, 20, 30],
    video_ok := true,
    pos_after_video := 2,
    doc_ok := true,
    doc_msg := "",
    clock := fun k => 100000000 + 1000000 * (k : ℤ),
    edit_ok := fun _ => true }

/-- exBase with an unknown (absent) duration entry. -/
def exC10 : Exec := { exBase with
  info := { title := some "Stream", duration := none, direct_url := none } }

/-- exBase with a one-hour video and notifier calls only 0.1 s apart, so
the second call falls inside the rate window. -/
def exC4 : Exec := { exBase with
  info := { title := some "Long film", duration := some 3600,
            direct_url := none },
  clock := fun k => 100000000 + 100000 * (k : ℤ) }

/-- exBase with an artifact one byte over the 50MB ceiling; the first
three notifier calls are one second apart and the fourth (the too-large
notice) follows the third (the uploading notice) by 0.1 s, as it does
whenever the size check directly follows the upload announcement. -/
def exC9 : Exec := { exBase with
  fsize := 52428801,
  clock := fun k => if k < 3 then 100000000 + 1000000 * (k : ℤ)
    else 102100000 }

/-- exBase with a rejected streamable-media upload. -/
def exC6 : Exec := { exBase with video_ok := false }

/-- exBase whose metadata extraction raises, with the failure following
the first notifier call by 0.1 s. -/
def exC8 : Exec := { exBase with
  extract_ok := false, extract_msg := "HTTP Error 403: Forbidden",
  clock := fun k => 100000000 + 100000 * (k : ℤ) }

/-! ## Helper lemmas -/

/-- The trace of the try/except/finally body always ends with the
finally-clause's cleanup event. -/
theorem runBody_ends_cleanup (ex : Exec) :
    ∃ l, (runBody ex).2 = l ++ [Event.cleanup] := by
  rcases hr : runTry ex with ⟨r | m, evs, s⟩
  · exact ⟨evs, by simp [runBody, hr]⟩
  · exact ⟨evs ++ [(doNotify ex s (caughtText m)).2], by simp [runBody, hr]⟩

/-- Progress texts begin with the code point U+F8FF while failure texts
begin with U+201A, so a progress text never equals a failure text,
whatever their interpolated parts are. -/
theorem progress_beq_failure (p f : String)
    (hp : p.toList.head? = some '') (hf : f.toList.head? = some '‚') :
    (p == f) = false := by
  refine beq_eq_false_iff_ne.mpr (fun he => ?_)
  rw [he, hf] at hp
  exact absurd (Option.some.inj hp) (by decide)

theorem fetching_beq_caught (m : String) :
    (fetchingText == caughtText m) = false :=
  progress_beq_failure _ _ rfl rfl

theorem found_beq_caught (t m : String) :
    (foundText t == caughtText m) = false :=
  progress_beq_failure _ _ rfl rfl

theorem uploading_beq_caught (m : String) :
    (uploadingText == caughtText m) = false :=
  progress_beq_failure _ _ rfl rfl

theorem fetching_beq_tooLong : (fetchingText == tooLongText) = false :=
  progress_beq_failure _ _ rfl rfl

theorem fetching_beq_noFile : (fetchingText == noFileText) = false :=
  progress_beq_failure _ _ rfl rfl

theorem found_beq_noFile (t : String) : (foundText t == noFileText) = false :=
  progress_beq_failure _ _ rfl rfl

theorem fetching_beq_tooLarge (n : Nat) :
    (fetchingText == tooLargeText n) = false :=
  progress_beq_failure _ _ rfl rfl

theorem found_beq_tooLarge (t : String) (n : Nat) :
    (foundText t == tooLargeText n) = false :=
  progress_beq_failure _ _ rfl rfl

theorem uploading_beq_tooLarge (n : Nat) :
    (uploadingText == tooLargeText n) = false :=
  progress_beq_failure _ _ rfl rfl

set_option maxHeartbeats 1600000 in
/-- No branch of the handler emits a remote-reference hand-off, and the
upload attempts all lie in branches that already performed the local
download. -/
theorem runBody_no_remoteRef (ex : Exec) :
    Event.remoteRefSend ∉ (runBody ex).2
    ∧ (∀ e ∈ (runBody ex).2, Event.isUpload e = true →
        Event.downloadCall ∈ (runBody ex).2) := by
  by_cases hio : ex.extract_ok = true <;>
  by_cases hd : ex.info.duration.getD 0 > 1800 <;>
  by_cases hdl : ex.download_ok = true <;>
  rcases hf : ex.listed.find? isVideoFile with _ | fn <;>
  by_cases hfs : ex.fsize > maxUploadSize <;>
  by_cases hv : ex.video_ok = true <;>
  by_cases hdoc : ex.doc_ok = true <;>
  refine ⟨?_, ?_⟩ <;>
  simp [runBody, runTry, doNotify, hio, hd, hdl, hf, hfs, hv, hdoc,
    Event.isUpload]

/-! Sanity checks: the matcher against known accepted and rejected shapes
of YOUTUBE_URL_RE, and human_bytes at the ceiling boundary. -/

theorem matcher_accepts_watch :
    youtubeUrlMatch "https://www.youtube.com/watch?v=dQw4w9WgXcQ" = true := by
  decide

theorem matcher_accepts_shortlink_query :
    youtubeUrlMatch "youtu.be/a-b_c?si=x1" = true := by decide

theorem matcher_accepts_uppercase :
    youtubeUrlMatch "HTTP://YOUTUBE.COM/SHORTS/Xyz9" = true := by decide

theorem matcher_accepts_live_amp :
    youtubeUrlMatch "www.youtube.com/live/abc&t=2" = true := by decide

theorem matcher_rejects_other_host :
    youtubeUrlMatch "https://vimeo.com/123" = false := by decide

theorem matcher_rejects_empty_id :
    youtubeUrlMatch "youtube.com/watch?v=" = false := by decide

theorem matcher_rejects_inner_space :
    youtubeUrlMatch "youtu.be/abc 1" = false := by decide

theorem human_bytes_boundary : human_bytes 52428801 = "50.0 MB" := by decide

/-! ## Claim C2 -/

/-- C2 counterexample: with the last successfully sent text equal to the
new text but the minimum interval elapsed (2 s here), update does make an
outbound edit. This falsifies the claim that a text identical to the last
sent text produces no outbound edit regardless of how much time has
elapsed: the identical-text early return of the source (line 192) fires
only together with `(now - last_edit) < min_interval`. -/
theorem c2_counterexample :
    (PNState.update { last_edit := 100000000, last_text := some "progress" }
      "progress" 102000000 true minInterval).2 = true := by decide

/-- C2 (amended): a call whose text equals the last sent text makes no
outbound edit only while the minimum interval has not elapsed; in
particular two update calls with identical text within the minimum
interval make exactly one outbound call — the first one (made from a state
past its rate window, with the edit succeeding) sends and the second one
is suppressed, leaving the state unchanged. -/
theorem c2_amended_dedup (st : PNState) (t : String) (n1 n2 : ℤ) (ok2 : Bool)
    (mi : ℤ) (h1 : ¬ n1 - st.last_edit < mi) (h2 : n2 - n1 < mi) :
    st.update t n1 true mi = ({ last_edit := n1, last_text := some t }, true)
    ∧ PNState.update { last_edit := n1, last_text := some t } t n2 ok2 mi
        = ({ last_edit := n1, last_text := some t }, false) := by
  constructor
  · unfold PNState.update
    rw [if_neg (fun h => h1 h.2), if_neg h1, if_pos rfl]
  · unfold PNState.update
    rw [if_pos ⟨rfl, h2⟩]

/-- Closed instance of c2_amended_dedup: two "s" updates 0.5 s apart make
exactly one outbound edit. -/
theorem c2_amended_dedup_witness :
    PNState.update { last_edit := 99000000, last_text := some "x" } "s"
      100000000 true minInterval
      = ({ last_edit := 100000000, last_text := some "s" }, true)
    ∧ PNState.update { last_edit := 100000000, last_text := some "s" } "s"
        100500000 true minInterval
        = ({ last_edit := 100000000, last_text := some "s" }, false) :=
  c2_amended_dedup _ "s" _ _ true _ (by decide) (by decide)

/-! ## Claim C3 -/

/-- C3: an update call with text different from the last sent text, made
before the minimum interval has elapsed since the last send, makes no
outbound call and returns the state unchanged (last_text and last_edit
keep their values). The state is the notifier's entire memory, so the
dropped text leaves no record and can never be emitted later as a queued
catch-up message. -/
theorem c3_drop_inside_interval (st : PNState) (t : String) (now : ℤ)
    (editOk : Bool) (mi : ℤ) (hneq : st.last_text ≠ some t)
    (hlt : now - st.last_edit < mi) :
    st.update t now editOk mi = (st, false) := by
  unfold PNState.update
  rw [if_neg (fun h => hneq h.1), if_pos hlt]

/-- Closed instance of c3_drop_inside_interval: a different text 0.2 s
after a send is dropped with no outbound call and no state change. -/
theorem c3_drop_inside_interval_witness :
    PNState.update { last_edit := 100000000, last_text := some "a" } "b"
      100200000 true minInterval
      = ({ last_edit := 100000000, last_text := some "a" }, false) :=
  c3_drop_inside_interval _ "b" _ true _ (by decide) (by decide)

/-! ## Claim C5 -/

/-- C5: when the stripped first argument does not match YOUTUBE_URL_RE,
the handler replies with the user guidance "Invalid YouTube link." as a
normal negative outcome (not an error), and the yt_dlp resolver is never
invoked: no extraction call appears in the trace. -/
theorem c5_invalid_url_guard (arg0 : String) (rest : List String) (ex : Exec)
    (h : youtubeUrlMatch (pyStrip arg0) = false) :
    ytdl_cmd (arg0 :: rest) ex
        = (Outcome.invalidLink, [Event.replyText invalidText])
    ∧ Event.extractCall ∉ (ytdl_cmd (arg0 :: rest) ex).2 := by
  refine ⟨?_, ?_⟩ <;> simp [ytdl_cmd, h]

/-- Closed instance of c5_invalid_url_guard on a non-YouTube URL. -/
theorem c5_invalid_url_guard_witness :
    ytdl_cmd ["https://example.com/watch?v=abc"] exBase
        = (Outcome.invalidLink, [Event.replyText invalidText])
    ∧ Event.extractCall ∉ (ytdl_cmd ["https://example.com/watch?v=abc"] exBase).2 :=
  c5_invalid_url_guard _ _ exBase (by decide)

/-! ## Claim C7 -/

/-- C7: every run that acquires the temporary workspace tears it down —
whenever the acquisition event is in the trace, the cleanup event is in
the trace, for every external behaviour: normal completion, duration or
size rejection, missing-file failure, delivery failure and caught
exception are all instances of the quantified Exec. -/
theorem c7_workspace_cleanup (args : List String) (ex : Exec)
    (h : Event.acquire ∈ (ytdl_cmd args ex).2) :
    Event.cleanup ∈ (ytdl_cmd args ex).2 := by
  cases args with
  | nil => simp [ytdl_cmd] at h
  | cons arg0 rest =>
    by_cases hm : youtubeUrlMatch (pyStrip arg0)
    · obtain ⟨l, hl⟩ := runBody_ends_cleanup ex
      simp [ytdl_cmd, hm, hl]
    · simp [ytdl_cmd, hm] at h

/-- Closed instance of c7_workspace_cleanup on a successful run. -/
theorem c7_workspace_cleanup_witness :
    Event.cleanup ∈ (ytdl_cmd ["https://youtu.be/dQw4w9WgXcQ"] exBase).2 :=
  c7_workspace_cleanup _ exBase (by decide)

/-! ## Claim C10 -/

/-- C10: when the resolved info dict has no duration entry,
`info.get('duration', 0)` falls back to 0, the duration gate admits the
request — the run never ends in the too-long rejection — and the download
step is invoked, whatever the rest of the run does. -/
theorem c10_unknown_duration_admitted (ex : Exec)
    (h1 : ex.extract_ok = true) (h2 : ex.info.duration = none) :
    (runBody ex).1 ≠ Outcome.tooLong
    ∧ Event.downloadCall ∈ (runBody ex).2 := by
  by_cases hdl : ex.download_ok = true <;>
  rcases hf : ex.listed.find? isVideoFile with _ | fn <;>
  by_cases hfs : ex.fsize > maxUploadSize <;>
  by_cases hv : ex.video_ok = true <;>
  by_cases hdoc : ex.doc_ok = true <;>
  refine ⟨?_, ?_⟩ <;>
  simp [runBody, runTry, doNotify, h1, h2, hdl, hf, hfs, hv, hdoc]

/-- Closed instance of c10_unknown_duration_admitted. -/
theorem c10_unknown_duration_admitted_witness :
    (runBody exC10).1 ≠ Outcome.tooLong
    ∧ Event.downloadCall ∈ (runBody exC10).2 :=
  c10_unknown_duration_admitted exC10 (by decide) (by decide)

/-! ## Claim C4 -/

/-- C4 counterexample: a one-hour video whose policy check lands 0.1 s
after the first progress edit. The run is rejected as too long, but the
only notifier call carrying the too-long text makes no outbound edit —
the rate limiter swallows it and the requester never receives a too-long
status update, falsifying that conjunct of the claim. -/
theorem c4_counterexample :
    (runBody exC4).1 = Outcome.tooLong
    ∧ Event.notify tooLongText false ∈ (runBody exC4).2
    ∧ Event.notify tooLongText true ∉ (runBody exC4).2 := by decide

/-- C4 (amended): whenever the resolved duration exceeds 1800 s the run
terminates as the too-long policy rejection regardless of byte size (the
quantified Exec fixes no size field), the download step is never invoked,
and the too-long status update is issued to the notifier — but it is
delivered only when the notifier's rate window allows an outbound edit,
so the sent flag is existentially quantified. -/
theorem c4_amended_duration_gate (ex : Exec) (h1 : ex.extract_ok = true)
    (h2 : ex.info.duration.getD 0 > 1800) :
    (runBody ex).1 = Outcome.tooLong
    ∧ Event.downloadCall ∉ (runBody ex).2
    ∧ (∃ s, Event.notify tooLongText s ∈ (runBody ex).2) := by
  refine ⟨?_, ?_, ?_⟩ <;>
  simp [runBody, runTry, doNotify, h1, h2]

/-- Closed instance of c4_amended_duration_gate on exC4. -/
theorem c4_amended_duration_gate_witness :
    (runBody exC4).1 = Outcome.tooLong
    ∧ Event.downloadCall ∉ (runBody exC4).2
    ∧ (∃ s, Event.notify tooLongText s ∈ (runBody exC4).2) :=
  c4_amended_duration_gate exC4 (by decide) (by decide)

/-! ## Claim C9 -/

/-- C9 counterexample: an artifact one byte over the ceiling. The run is
rejected as too large before any upload, but the too-large notifier call
comes 0.1 s after the "Uploading to Telegram..." edit, so the rate
limiter swallows it: the requester is never told the file is too large,
falsifying that conjunct of the claim. -/
theorem c9_counterexample :
    (runBody exC9).1 = Outcome.tooLarge 52428801
    ∧ Event.notify (tooLargeText 52428801) false ∈ (runBody exC9).2
    ∧ Event.notify (tooLargeText 52428801) true ∉ (runBody exC9).2 := by decide

/-- C9 (amended): when the on-disk size exceeds the 50MB ceiling the run
terminates as the size policy rejection (not as a caught fetch error),
the size is checked before any upload attempt and no upload event of
either payload kind occurs, the too-large status update is issued to the
notifier (delivered only when the rate window allows an outbound edit),
and the workspace holding the fetched bytes is torn down. -/
theorem c9_amended_size_gate (ex : Exec) (h1 : ex.extract_ok = true)
    (h2 : ¬ ex.info.duration.getD 0 > 1800) (h3 : ex.download_ok = true)
    (fn : String) (h4 : ex.listed.find? isVideoFile = some fn)
    (h5 : ex.fsize > maxUploadSize) :
    (runBody ex).1 = Outcome.tooLarge ex.fsize
    ∧ (∀ e ∈ (runBody ex).2, Event.isUpload e = false)
    ∧ (runBody ex).2.any (Event.isNotifyText (tooLargeText ex.fsize)) = true
    ∧ Event.cleanup ∈ (runBody ex).2 := by
  refine ⟨?_, ?_, ?_, ?_⟩ <;>
  simp [runBody, runTry, doNotify, h1, h2, h3, h4, h5, Event.isUpload,
    Event.isNotifyText, fetching_beq_tooLarge, found_beq_tooLarge,
    uploading_beq_tooLarge]

/-- Closed instance of c9_amended_size_gate on exC9. -/
theorem c9_amended_size_gate_witness :
    (runBody exC9).1 = Outcome.tooLarge exC9.fsize
    ∧ (∀ e ∈ (runBody exC9).2, Event.isUpload e = false)
    ∧ (runBody exC9).2.any (Event.isNotifyText (tooLargeText exC9.fsize)) = true
    ∧ Event.cleanup ∈ (runBody exC9).2 :=
  c9_amended_size_gate exC9 (by decide) (by decide) (by decide) "v.mp4"
    (by decide) (by decide)

/-! ## Claim C6 -/

/-- C6: in a run that reaches delivery and whose streamable-media
(video) upload is rejected, the upload attempts of the whole trace are
exactly the rejected video attempt followed by one document-tagged
attempt, and the document attempt reads from position zero of the
artifact stream — the f.seek(0) before it rewinds the stream, so the
retry sends the identical bytes from the start (this holds whether the
document attempt itself succeeds or raises). -/
theorem c6_document_fallback (ex : Exec) (h1 : ex.extract_ok = true)
    (h2 : ¬ ex.info.duration.getD 0 > 1800) (h3 : ex.download_ok = true)
    (fn : String) (h4 : ex.listed.find? isVideoFile = some fn)
    (h5 : ¬ ex.fsize > maxUploadSize) (h6 : ex.video_ok = false) :
    (runBody ex).2.filter Event.isUpload
      = [Event.videoUpload 0 ex.artifact, Event.docUpload 0 ex.artifact] := by
  by_cases hdoc : ex.doc_ok = true <;>
  simp [runBody, runTry, doNotify, h1, h2, h3, h4, h5, h6, hdoc,
    Event.isUpload, FileStream.seek0, FileStream.readAll, List.filter]

/-- Closed instance of c6_document_fallback on exC6. -/
theorem c6_document_fallback_witness :
    (runBody exC6).2.filter Event.isUpload
      = [Event.videoUpload 0 exC6.artifact, Event.docUpload 0 exC6.artifact] :=
  c6_document_fallback exC6 (by decide) (by decide) (by decide) "v.mp4"
    (by decide) (by decide) (by decide)

/-! ## Claim C1 -/

/-- C1 counterexample: a run whose resolved descriptor carries a direct
media URL and which completes successfully, yet whose trace contains no
remote-reference hand-off at all — the local download runs
unconditionally, not as a fallback to a rejected remote attempt. This
falsifies the claim that such a run first attempts a send-by-URL
delivery. -/
theorem c1_counterexample :
    exBase.info.direct_url = some "https://cdn.example/v.mp4"
    ∧ (ytdl_cmd ["https://youtu.be/dQw4w9WgXcQ"] exBase).1 = Outcome.sentVideo
    ∧ Event.remoteRefSend ∉ (ytdl_cmd ["https://youtu.be/dQw4w9WgXcQ"] exBase).2
    ∧ Event.downloadCall ∈ (ytdl_cmd ["https://youtu.be/dQw4w9WgXcQ"] exBase).2 := by
  decide

/-- C1 (amended): the handler never attempts a remote-reference
(send-by-URL) delivery — no trace of any run contains one — and every
upload attempt (video or document) occurs in a run whose trace contains
the local download step: delivery is always local download followed by
upload, regardless of the direct media URL in the descriptor. -/
theorem c1_amended_delivery (args : List String) (ex : Exec) :
    Event.remoteRefSend ∉ (ytdl_cmd args ex).2
    ∧ (∀ e ∈ (ytdl_cmd args ex).2, Event.isUpload e = true →
        Event.downloadCall ∈ (ytdl_cmd args ex).2) := by
  obtain ⟨hb1, hb2⟩ := runBody_no_remoteRef ex
  cases args with
  | nil => simp [ytdl_cmd, Event.isUpload]
  | cons arg0 rest =>
    by_cases hm : youtubeUrlMatch (pyStrip arg0) = true
    · refine ⟨?_, ?_⟩ <;> simp only [ytdl_cmd, hm, if_true, List.mem_cons]
      · rintro (h | h | h)
        · exact Event.noConfusion h
        · exact Event.noConfusion h
        · exact hb1 h
      · rintro e (rfl | rfl | hmem) hup
        · exact absurd hup (by simp [Event.isUpload])
        · exact absurd hup (by simp [Event.isUpload])
        · exact Or.inr (Or.inr (hb2 e hmem hup))
    · simp only [ytdl_cmd, hm]
      simp [Event.isUpload]

/-- Closed instance of c1_amended_delivery: on the successful exBase run
the trace has no remote-reference event and does contain the download
step (discharging the inner implication at its video upload event). -/
theorem c1_amended_delivery_witness :
    Event.remoteRefSend ∉ (ytdl_cmd ["https://youtu.be/dQw4w9WgXcQ"] exBase).2
    ∧ Event.downloadCall ∈ (ytdl_cmd ["https://youtu.be/dQw4w9WgXcQ"] exBase).2 :=
  ⟨(c1_amended_delivery ["https://youtu.be/dQw4w9WgXcQ"] exBase).1,
    (c1_amended_delivery ["https://youtu.be/dQw4w9WgXcQ"] exBase).2
      (Event.videoUpload 0 [10, 20, 30]) (by decide) (by decide)⟩

/-! ## Claim C8 -/

/-- C8 counterexample: a run whose metadata extraction raises 0.1 s after
the first progress edit. The failure text is issued to the notifier once
but the rate limiter swallows it: the whole trace shows the failure
notice with no outbound edit, so the requester receives zero status
updates about the terminal failure, falsifying the "never zero" conjunct
of the claim. -/
theorem c8_counterexample :
    (runBody exC8).1 = Outcome.errorCaught "HTTP Error 403: Forbidden"
    ∧ (runBody exC8).2
        = [Event.notify fetchingText true, Event.extractCall,
           Event.notify (caughtText "HTTP Error 403: Forbidden") false,
           Event.cleanup] := by decide

/-- C8 (amended): every terminal failure (too-long or too-large policy
rejection, missing downloaded file, caught exception) issues exactly one
notifier call carrying that failure's user-facing text — the text of a
caught exception being the truncated exception message, not a stack
trace — but the outbound edit behind it can still be suppressed by the
notifier's rate limit or a failed edit, so the number the requester
actually sees can be zero. -/
theorem c8_amended_failure_notice (ex : Exec) (txt : String)
    (h : failNotice (runBody ex).1 = some txt) :
    ((runBody ex).2.filter (Event.isNotifyText txt)).length = 1 := by
  by_cases hio : ex.extract_ok = true <;>
  by_cases hd : ex.info.duration.getD 0 > 1800 <;>
  by_cases hdl : ex.download_ok = true <;>
  rcases hf : ex.listed.find? isVideoFile with _ | fn <;>
  by_cases hfs : ex.fsize > maxUploadSize <;>
  by_cases hv : ex.video_ok = true <;>
  by_cases hdoc : ex.doc_ok = true <;>
  simp [runBody, runTry, doNotify, failNotice, hio, hd, hdl, hf, hfs, hv,
    hdoc] at h <;>
  subst h <;>
  simp [runBody, runTry, doNotify, hio, hd, hdl, hf, hfs, hv, hdoc,
    Event.isNotifyText, List.filter, beq_self_eq_true, fetching_beq_caught,
    found_beq_caught, uploading_beq_caught, fetching_beq_tooLong,
    fetching_beq_noFile, found_beq_noFile, fetching_beq_tooLarge,
    found_beq_tooLarge, uploading_beq_tooLarge]

/-- Closed instance of c8_amended_failure_notice on exC8. -/
theorem c8_amended_failure_notice_witness :
    ((runBody exC8).2.filter
        (Event.isNotifyText (caughtText "HTTP Error 403: Forbidden"))).length
      = 1 :=
  c8_amended_failure_notice exC8 _ (by decide)

end YTDL
